import Mathlib

/-!
Verification of the tool-invocation core of the `ai_summaraizer_airflow`
repository: the combined MCP HTTP server (`src/mcp_server.py`), the tool
dispatch and registration modules (`src/dags/news_tool.py`,
`src/dags/weather_tool.py`), and the GigaChat orchestration in
`src/dags/bitcoin_news_summary_dag.py`.

The Python code is shallowly embedded: JSON/Python values become an
inductive `Json` type (numbers as rationals), upstream HTTP calls become
oracle parameters with explicit call tracking, and Python exceptions that
the code can raise or catch become `Except` values tagged with the
exception class.
-/

namespace BtcNews

/-- JSON-like Python values as handled by the server and the tools.
`obj` models a Python dict produced by `json.loads` (distinct keys;
`lookup?` returns the value bound to a key), `num` models Python numbers
as rationals. -/
inductive Json where
  | null
  | bool (b : Bool)
  | num (q : ℚ)
  | str (s : String)
  | arr (xs : List Json)
  | obj (kvs : List (String × Json))

/-- Value bound to a key in a JSON object; `none` for non-objects or
absent keys. -/
def Json.lookup? : Json → String → Option Json
  | .obj kvs, k => (kvs.find? (fun p => p.1 == k)).map Prod.snd
  | _, _ => none

/-- Python `k in d` for a dict: top-level key membership. -/
def Json.hasKey (j : Json) (k : String) : Bool :=
  (j.lookup? k).isSome

/-- Python truthiness of a JSON value (`bool(x)`). -/
def Json.truthy : Json → Bool
  | .null => false
  | .bool b => b
  | .num q => q != 0
  | .str s => s != ""
  | .arr xs => !xs.isEmpty
  | .obj kvs => !kvs.isEmpty

/-- Python `x is None` test on an embedded value. -/
def Json.isNull : Json → Bool
  | .null => true
  | _ => false

/-- Python `isinstance(x, list)`. -/
def Json.isList : Json → Bool
  | .arr _ => true
  | _ => false

/-- The Python exception classes the embedded code distinguishes: the
server's inner `except` clauses catch specific subsets of these. -/
inductive PyExc where
  | keyError
  | attrError
  | indexError
  | typeError
deriving DecidableEq

/-- Name of the exception, standing in for Python's `str(e)` in error
messages. -/
def PyExc.msg : PyExc → String
  | .keyError => "KeyError"
  | .attrError => "AttributeError"
  | .indexError => "IndexError"
  | .typeError => "TypeError"

/-- Python `j.get(k, d)`: only dicts have `.get`; any other value raises
`AttributeError`. -/
def pyGetD (j : Json) (k : String) (d : Json) : Except PyExc Json :=
  match j with
  | .obj kvs => .ok (((kvs.find? (fun p => p.1 == k)).map Prod.snd).getD d)
  | _ => .error .attrError

/-- Python `j.get(k)` (default `None`). -/
def pyGet (j : Json) (k : String) : Except PyExc Json :=
  pyGetD j k .null

/-- Python subscript `j[k]` with a string key: dict lookup (`KeyError` if
absent); any other container raises `TypeError`. -/
def pySubscr (j : Json) (k : String) : Except PyExc Json :=
  match j with
  | .obj kvs =>
    match kvs.find? (fun p => p.1 == k) with
    | some p => .ok p.2
    | none => .error .keyError
  | _ => .error .typeError

/-- Python `j[0]`: head of a list (`IndexError` if empty), first character
of a string, `KeyError` on a dict (JSON dict keys are strings, so the
integer key `0` is absent), `TypeError` otherwise. -/
def pyIndex0 : Json → Except PyExc Json
  | .arr [] => .error .indexError
  | .arr (x :: _) => .ok x
  | .str s => if s.isEmpty then .error .indexError else .ok (.str (String.singleton s.front))
  | .obj _ => .error .keyError
  | _ => .error .typeError

/-- Prefix test on character lists, used for Python substring search. -/
def isPrefixB : List Char → List Char → Bool
  | [], _ => true
  | _ :: _, [] => false
  | n :: ns, h :: hs => n == h && isPrefixB ns hs

/-- Substring occurrence test on character lists. -/
def hasSub (needle : List Char) : List Char → Bool
  | [] => needle.isEmpty
  | h :: hs => isPrefixB needle (h :: hs) || hasSub needle hs

/-- Python `needle in hay` for strings (substring test). -/
def strIn (needle hay : String) : Bool :=
  hasSub needle.data hay.data

/-- Python `x in c` where `x` is a string and `c` an arbitrary value:
key membership for dicts, element membership for lists, substring test
for strings; `TypeError` for non-containers. -/
def pyIn (needle : String) : Json → Except PyExc Bool
  | .obj kvs => .ok (kvs.any (fun p => p.1 == needle))
  | .arr xs => .ok (xs.any (fun x => match x with | .str s => s == needle | _ => false))
  | .str s => .ok (strIn needle s)
  | _ => .error .typeError

/-- Whitespace characters stripped by Python's `str.strip()` (ASCII
range; the repository's credentials and messages are ASCII/Cyrillic
without exotic unicode spaces). -/
def pyIsSpace (c : Char) : Bool :=
  c == ' ' || c == '\t' || c == '\n' || c == '\r' || c == '\x0b' || c == '\x0c'

/-- Python `s.strip()`. -/
def pyStrip (s : String) : String :=
  ⟨((s.data.dropWhile pyIsSpace).reverse.dropWhile pyIsSpace).reverse⟩

/-- Single-key error payload `{"error": m}` that the handlers return on
failure. -/
def errObj (m : String) : Json :=
  Json.obj [("error", Json.str m)]

/-- Outcome of a `requests.get` call made by the server against an
upstream API: a timeout, a connection error, another request exception,
or a response with a status code, raw text, and a JSON-parse outcome for
its body (`.error` when `response.json()` raises). -/
inductive Upstream where
  | timeout
  | connError (msg : String)
  | reqError (msg : String)
  | resp (status : Nat) (text : String) (body : Except String Json)

/-! ### Weather handler (`mcp_server.py`, `_handle_weather_request`) -/

/-- Exception classes caught by the weather handler's extraction block:
`except (KeyError, AttributeError, IndexError)`. -/
def weatherCaught : PyExc → Bool
  | .keyError => true
  | .attrError => true
  | .indexError => true
  | .typeError => false

/-- Fallback extraction `weather_data.get('forecasts', [{}])[0].get('parts',
{}).get('day', {}) if weather_data.get('forecasts') else {}` from
`_handle_weather_request`. -/
def weatherFallbackFact (wd : Json) : Except PyExc Json :=
  pyGet wd "forecasts" >>= fun cond =>
    if cond.truthy then
      pyGetD wd "forecasts" (.arr [.obj []]) >>= fun fcs =>
        pyIndex0 fcs >>= fun f0 =>
          pyGetD f0 "parts" (.obj []) >>= fun parts =>
            pyGetD parts "day" (.obj [])
    else
      pure (.obj [])

/-- Reading of the four weather fields from the chosen `fact` value
(`fact.get(...)` four times), with the all-`None` case converted to the
extraction-failure payload carrying the raw upstream body. -/
def weatherReadFields (wd fact : Json) : Except PyExc Json :=
  pyGet fact "temp" >>= fun temp =>
    pyGet fact "condition" >>= fun cond =>
      pyGet fact "wind_speed" >>= fun ws =>
        pyGet fact "humidity" >>= fun hum =>
          if temp.isNull && cond.isNull && ws.isNull && hum.isNull then
            pure (Json.obj [("error", .str "Не удалось извлечь данные о погоде из ответа API"),
                            ("raw_response", wd)])
          else
            pure (Json.obj [("temperature", temp), ("condition", cond),
                            ("wind_speed", ws), ("humidity", hum)])

/-- Field extraction of `_handle_weather_request` (the inner `try` block):
take `fact`, fall back to the forecast shape when `fact` is falsy, then
read the four fields. -/
def weatherExtract (wd : Json) : Except PyExc Json :=
  pyGetD wd "fact" (.obj []) >>= fun fact0 =>
    (if fact0.truthy then pure fact0 else weatherFallbackFact wd) >>= fun fact =>
      weatherReadFields wd fact

/-- Result of parsing a 200 upstream weather body: the extraction result,
or the handler's `except` conversions (caught classes produce the
format-error payload with the raw body; others fall through to the outer
`except Exception`). -/
def weatherParse (wd : Json) : Json :=
  match weatherExtract wd with
  | .ok r => r
  | .error e =>
    if weatherCaught e then
      Json.obj [("error", .str ("Неожиданный формат ответа от API: " ++ e.msg)),
                ("raw_response", wd)]
    else
      errObj ("Неожиданная ошибка: " ++ e.msg)

/-- Payload produced from the upstream weather call once validation has
passed (`_handle_weather_request`, request block). -/
def weatherUpstreamResult : Upstream → Json
  | .timeout => errObj "Таймаут при запросе к API Яндекс.Погоды"
  | .connError m => errObj ("Ошибка соединения с API: " ++ m)
  | .reqError m => errObj ("Ошибка сети: " ++ m)
  | .resp status text body =>
    if status ≠ 200 then
      if status = 403 then
        Json.obj [("error", .str "Ошибка доступа (403). Проверьте правильность API ключа YANDEX_WEATHER_API_KEY"),
                  ("details", .str (if text = "" then "Forbidden" else text))]
      else if status = 401 then
        Json.obj [("error", .str "Ошибка аутентификации (401). Неверный API ключ"),
                  ("details", .str (if text = "" then "Unauthorized" else text))]
      else
        Json.obj [("error", .str ("Ошибка API Яндекс.Погоды: статус " ++ toString status)),
                  ("details", .str (if text = "" then "Unknown error" else text))]
    else
      match body with
      | .error m => errObj ("Ошибка сети: " ++ m)
      | .ok wd => weatherParse wd

/-- A coordinate parameter as seen by the handler: absent (`None`),
parsed by `float(...)` to a number, or a value on which `float(...)`
raises. -/
inductive Coord where
  | absent
  | num (q : ℚ)
  | unparseable
deriving DecidableEq

/-- Handler output: the JSON payload plus whether the upstream weather
API request was performed. -/
structure WeatherOut where
  payload : Json
  upstreamCalled : Bool

/-- Error message for an out-of-range latitude. -/
def latRangeMsg : String := "Широта должна быть в диапазоне от -90 до 90"

/-- Error message for an out-of-range longitude. -/
def lonRangeMsg : String := "Долгота должна быть в диапазоне от -180 до 180"

/-- API-key checks of `_handle_weather_request` (`os.getenv` result
missing or empty, then empty after `strip()`), followed by the upstream
call when the key is usable. -/
def weather_validated (apiKeyEnv : Option String) (up : Upstream) : WeatherOut :=
  match apiKeyEnv with
  | none => ⟨errObj "API ключ не настроен. Установите переменную окружения YANDEX_WEATHER_API_KEY", false⟩
  | some k =>
    if k = "" then
      ⟨errObj "API ключ не настроен. Установите переменную окружения YANDEX_WEATHER_API_KEY", false⟩
    else if pyStrip k = "" then
      ⟨errObj "API ключ пустой. Проверьте переменную окружения YANDEX_WEATHER_API_KEY в .env файле", false⟩
    else
      ⟨weatherUpstreamResult up, true⟩

/-- Embedding of `_handle_weather_request` from `mcp_server.py`:
missing-coordinate check, numeric conversion, per-axis range checks
(latitude first), API-key checks, then the upstream call. The upstream
outcome is an oracle argument; `upstreamCalled` records whether the code
reached the `requests.get` call. -/
def _handle_weather_request (lat lon : Coord) (apiKeyEnv : Option String)
    (up : Upstream) : WeatherOut :=
  if lat = .absent ∨ lon = .absent then
    ⟨errObj "Необходимо указать latitude и longitude", false⟩
  else
    match lat, lon with
    | .num la, .num lo =>
      if ¬((-90 : ℚ) ≤ la ∧ la ≤ 90) then
        ⟨errObj latRangeMsg, false⟩
      else if ¬((-180 : ℚ) ≤ lo ∧ lo ≤ 180) then
        ⟨errObj lonRangeMsg, false⟩
      else
        weather_validated apiKeyEnv up
    | _, _ => ⟨errObj "Координаты должны быть числами", false⟩

/-! ### News handler (`mcp_server.py`, `_handle_news_request`) -/

/-- Exception classes caught by the news handler's extraction block:
`except (KeyError, AttributeError, TypeError)`. -/
def newsCaught : PyExc → Bool
  | .keyError => true
  | .attrError => true
  | .typeError => true
  | .indexError => false

/-- The title-collecting loop of `_handle_news_request`: for each element
of `results`, test `"title" in article` and append `article["title"]`
when present. -/
def collectTitles : List Json → Except PyExc (List Json)
  | [] => .ok []
  | a :: rest =>
    pyIn "title" a >>= fun ht =>
      if ht then
        pySubscr a "title" >>= fun t =>
          collectTitles rest >>= fun ts => pure (t :: ts)
      else
        collectTitles rest

/-- Title extraction of `_handle_news_request` (the inner `try` block):
`if "results" in news_data and isinstance(news_data["results"], list)`
then collect the titles, and build `{titles, total_count}`. -/
def newsTitlesOf (nd : Json) : Except PyExc (List Json) :=
  pyIn "results" nd >>= fun hr =>
    if hr then
      pySubscr nd "results" >>= fun res =>
        match res with
        | .arr arts => collectTitles arts
        | _ => pure []
    else
      pure []

/-- Title extraction of `_handle_news_request`, continued: build the
`{titles, total_count}` payload from the collected titles. -/
def newsExtract (nd : Json) : Except PyExc Json :=
  newsTitlesOf nd >>= fun titles =>
    pure (Json.obj [("titles", .arr titles), ("total_count", .num (titles.length : ℚ))])

/-- Result of parsing a 200 upstream news body: the extraction result or
the handler's `except` conversions (caught classes produce the
format-error payload with the raw body; anything else reaches the
handler's final `except Exception`). -/
def newsParse (nd : Json) : Json :=
  match newsExtract nd with
  | .ok r => r
  | .error e =>
    if newsCaught e then
      Json.obj [("error", .str ("Неожиданный формат ответа от API: " ++ e.msg)),
                ("raw_response", nd)]
    else
      errObj ("Неожиданная ошибка: " ++ e.msg)

/-- Embedding of `_handle_news_request` from `mcp_server.py`: non-200
statuses become an error payload with details, transport failures become
the corresponding error payloads, a JSON-parse failure of the body raises
a `RequestException` subclass and becomes the network-error payload, and
a 200 body goes through title extraction. -/
def _handle_news_request : Upstream → Json
  | .timeout => errObj "Таймаут при запросе к API новостей"
  | .connError m => errObj ("Ошибка соединения с API: " ++ m)
  | .reqError m => errObj ("Ошибка сети: " ++ m)
  | .resp status text body =>
    if status ≠ 200 then
      Json.obj [("error", .str ("Ошибка API новостей: статус " ++ toString status)),
                ("details", .str (if text = "" then "Unknown error" else text))]
    else
      match body with
      | .error m => errObj ("Ошибка сети: " ++ m)
      | .ok nd => newsParse nd

/-- HTTP status chosen by `do_GET` in `mcp_server.py`: 400 when the
handler payload has an `error` key, 200 otherwise, overridden to 404 for
unknown paths. -/
def get_status (path : String) (data : Json) : Nat :=
  let base := if data.hasKey "error" then 400 else 200
  if path = "/" ∨ path = "/health" ∨ path = "/news" ∨ path = "/get_news" ∨
      path = "/weather" ∨ path = "/get_weather" then base else 404

/-- HTTP status chosen by `do_POST` in `mcp_server.py` (its known-path
list omits `/` and `/health`). -/
def post_status (path : String) (data : Json) : Nat :=
  let base := if data.hasKey "error" then 400 else 200
  if path = "/news" ∨ path = "/get_news" ∨ path = "/weather" ∨ path = "/get_weather" then
    base
  else 404

/-- Titles that the claim predicts for a list of article objects: the
`title` binding of each object that has one, in order. -/
def objsTitles (arts : List (List (String × Json))) : List Json :=
  arts.filterMap (fun a => (a.find? (fun p => p.1 == "title")).map Prod.snd)

/-! ### POST routing (`mcp_server.py`, `do_POST`) -/

/-- The POST request body as the server sees it: empty (parsing skipped,
`request_data = {}`), non-empty but not valid JSON (the `json.loads`
failure message), or decoded JSON. -/
inductive PostBody where
  | empty
  | invalid (msg : String)
  | valid (j : Json)

/-- Outcome of one POST request: response payload, HTTP status, and
whether the news/weather upstream APIs were contacted. -/
structure ServerOut where
  data : Json
  status : Nat
  newsUpstreamCalled : Bool
  weatherUpstreamCalled : Bool

/-- A coordinate taken from the decoded POST body by
`request_data.get(...)` and later fed to `float(...)`: absent keys and
JSON `null` give Python `None`; numbers and booleans convert; strings
convert through the given float parser; lists and dicts make `float`
raise. -/
def coordOfJson (pf : String → Option ℚ) : Option Json → Coord
  | none => .absent
  | some .null => .absent
  | some (.num q) => .num q
  | some (.bool b) => .num (if b then 1 else 0)
  | some (.str s) =>
    match pf s with
    | some q => .num q
    | none => .unparseable
  | some (.arr _) => .unparseable
  | some (.obj _) => .unparseable

/-- Embedding of `do_POST` from `mcp_server.py`. A non-empty body that is
not valid JSON is answered 400 before any routing. Routing then calls the
handlers (the news handler always performs its upstream request; the
weather handler reports whether it did). Reading `latitude` from a
non-dict body raises `AttributeError`, which the outer `except Exception`
turns into a 500. `pf` abstracts Python's `float` parsing of strings. -/
def do_POST (pf : String → Option ℚ) (path : String) (body : PostBody)
    (newsUp : Upstream) (wUp : Upstream) (key : Option String) : ServerOut :=
  match body with
  | .invalid m => ⟨errObj ("Некорректный JSON: " ++ m), 400, false, false⟩
  | _ =>
    let request_data : Json :=
      match body with
      | .valid j => j
      | _ => .obj []
    if path = "/news" ∨ path = "/get_news" then
      let d := _handle_news_request newsUp
      ⟨d, post_status path d, true, false⟩
    else if path = "/weather" ∨ path = "/get_weather" then
      match request_data with
      | .obj kvs =>
        let la := coordOfJson pf ((Json.obj kvs).lookup? "latitude")
        let lo := coordOfJson pf ((Json.obj kvs).lookup? "longitude")
        let w := _handle_weather_request la lo key wUp
        ⟨w.payload, post_status path w.payload, false, w.upstreamCalled⟩
      | _ => ⟨errObj "Внутренняя ошибка сервера: AttributeError", 500, false, false⟩
    else
      let d := Json.obj [("error", .str "Неизвестный эндпоинт"),
        ("available_endpoints", .arr [.str "/news", .str "/get_news",
          .str "/weather", .str "/get_weather"])]
      ⟨d, post_status path d, false, false⟩

/-! ### Tool clients and dispatch (`dags/news_tool.py`, `dags/weather_tool.py`) -/

/-- Outcome of the `requests.get` call made by a tool client against the
MCP server: any `RequestException` (timeout, connection error, ...), or a
response with a status code, the `HTTPError` message `raise_for_status`
would raise, and a JSON-parse outcome for the body. -/
inductive ClientUp where
  | exc (msg : String)
  | resp (status : Nat) (httpErrMsg : String) (body : Except String Json)

/-- Embedding of `get_news_titles` from `dags/news_tool.py`:
`raise_for_status` raises `HTTPError` for 4xx/5xx statuses, a body-parse
failure raises a `RequestException` subclass, and both are caught and
converted to the request-error payload; otherwise the parsed body is
returned as-is. -/
def get_news_titles : ClientUp → Json
  | .exc m => errObj ("Ошибка при запросе новостей: " ++ m)
  | .resp st hm body =>
    if 400 ≤ st ∧ st < 600 then
      errObj ("Ошибка при запросе новостей: " ++ hm)
    else
      match body with
      | .error m => errObj ("Ошибка при запросе новостей: " ++ m)
      | .ok j => j

/-- Embedding of `get_weather` from `dags/weather_tool.py`: like
`get_news_titles`, but the error payload echoes the requested
coordinates. -/
def get_weather (la lo : Json) : ClientUp → Json
  | .exc m =>
    Json.obj [("error", .str ("Ошибка при запросе погоды: " ++ m)),
              ("latitude", la), ("longitude", lo)]
  | .resp st hm body =>
    if 400 ≤ st ∧ st < 600 then
      Json.obj [("error", .str ("Ошибка при запросе погоды: " ++ hm)),
                ("latitude", la), ("longitude", lo)]
    else
      match body with
      | .error m =>
        Json.obj [("error", .str ("Ошибка при запросе погоды: " ++ m)),
                  ("latitude", la), ("longitude", lo)]
      | .ok j => j

/-- The `arguments` member of a tool call: a Python string together with
its `json.loads` outcome, or an already-decoded non-string value used
as-is. -/
inductive PyArgs where
  | jstr (parse : Except String Json)
  | val (j : Json)

/-- A tool-call dict as built by the DAG from the model reply:
`{"name": ..., "arguments": ...}`. -/
structure ToolCall where
  name : String
  arguments : PyArgs

/-- Result of one tool dispatch: the returned payload plus whether the
HTTP request to the tool server was performed. -/
structure ExecOut where
  result : Json
  called : Bool

/-- Embedding of `execute_news_tool` from `dags/news_tool.py`: reject
unknown names, reject string arguments that fail to decode, and otherwise
call `get_news_titles` — the decoded arguments are discarded. -/
def execute_news_tool (tc : ToolCall) (up : ClientUp) : ExecOut :=
  if tc.name ≠ "news" then
    ⟨errObj ("Неизвестная функция: " ++ tc.name), false⟩
  else
    match tc.arguments with
    | .jstr (.error m) => ⟨errObj ("Ошибка парсинга аргументов: " ++ m), false⟩
    | _ => ⟨get_news_titles up, true⟩

/-- Embedding of `execute_weather_tool` from `dags/weather_tool.py`:
reject unknown names and undecodable string arguments, read the
coordinates with `arguments.get(...)` (raising `AttributeError` on a
non-dict, which escapes the function), reject missing coordinates, and
otherwise call `get_weather`. -/
def execute_weather_tool (tc : ToolCall) (up : ClientUp) : Except PyExc ExecOut :=
  if tc.name ≠ "weather" then
    .ok ⟨errObj ("Неизвестная функция: " ++ tc.name), false⟩
  else
    match tc.arguments with
    | .jstr (.error m) => .ok ⟨errObj ("Ошибка парсинга аргументов: " ++ m), false⟩
    | .jstr (.ok j) | .val j =>
      pyGet j "latitude" >>= fun la =>
        pyGet j "longitude" >>= fun lo =>
          if la.isNull || lo.isNull then
            .ok ⟨errObj "Не указаны координаты latitude и/или longitude", false⟩
          else
            .ok ⟨get_weather la lo up, true⟩

/-- Arguments that decode successfully: a valid JSON string or any
already-decoded value. -/
def decodesOk : PyArgs → Bool
  | .jstr (.ok _) => true
  | .jstr (.error _) => false
  | .val _ => true

/-! ### Tool registration (`dags/news_tool.py`, `dags/weather_tool.py`) -/

/-- `NEWS_TOOL_DEFINITION` from `dags/news_tool.py`. -/
def NEWS_TOOL_DEFINITION : Json :=
  Json.obj [("type", .str "function"),
    ("function", Json.obj [("name", .str "news"),
      ("description", .str "Получает актуальные заголовки новостей о Bitcoin. Возвращает список заголовков из последних новостей."),
      ("parameters", Json.obj [("type", .str "object"),
        ("properties", Json.obj []),
        ("required", Json.arr [])])])]

/-- `WEATHER_TOOL_DEFINITION` from `dags/weather_tool.py`. -/
def WEATHER_TOOL_DEFINITION : Json :=
  Json.obj [("type", .str "function"),
    ("function", Json.obj [("name", .str "weather"),
      ("description", .str "Получает актуальную информацию о погоде по географическим координатам. Возвращает температуру, условия, скорость ветра и влажность."),
      ("parameters", Json.obj [("type", .str "object"),
        ("properties", Json.obj [
          ("latitude", Json.obj [("type", .str "number"),
            ("description", .str "Широта в градусах (от -90 до 90)")]),
          ("longitude", Json.obj [("type", .str "number"),
            ("description", .str "Долгота в градусах (от -180 до 180)")])]),
        ("required", Json.arr [.str "latitude", .str "longitude"])])])]

/-- The duplicate probe `tool.get("function", {}).get("name") == target`
performed on one registry entry. -/
def toolIsNamed (target : String) (t : Json) : Except PyExc Bool :=
  pyGetD t "function" (.obj []) >>= fun f =>
    pyGet f "name" >>= fun n =>
      pure (match n with
        | .str s => s == target
        | _ => false)

/-- The linear duplicate scan of `register_news_tool` /
`register_weather_tool` (the `for tool in tools_list` loop with its early
`return`). -/
def scanFor (target : String) : List Json → Except PyExc Bool
  | [] => .ok false
  | t :: ts =>
    toolIsNamed target t >>= fun b =>
      if b then pure true else scanFor target ts

/-- Embedding of `register_news_tool` from `dags/news_tool.py` (callers
passing `None` start from `[]`): a no-op when a `news`-named descriptor
is already present, an append otherwise. -/
def register_news_tool (l : List Json) : Except PyExc (List Json) :=
  scanFor "news" l >>= fun b =>
    if b then pure l else pure (l ++ [NEWS_TOOL_DEFINITION])

/-- Embedding of `register_weather_tool` from `dags/weather_tool.py`. -/
def register_weather_tool (l : List Json) : Except PyExc (List Json) :=
  scanFor "weather" l >>= fun b =>
    if b then pure l else pure (l ++ [WEATHER_TOOL_DEFINITION])

/-- Boolean version of the duplicate probe, used to count descriptors by
name (a non-dict entry counts as unnamed). -/
def isNamedB (target : String) (t : Json) : Bool :=
  match toolIsNamed target t with
  | .ok b => b
  | .error _ => false

/-- Number of descriptors with the given tool name in a registry list. -/
def countName (l : List Json) (target : String) : Nat :=
  l.countP (isNamedB target)

/-- One registration action. -/
inductive RegOp where
  | news
  | weather

/-- Apply one registration. -/
def applyOp : RegOp → List Json → Except PyExc (List Json)
  | .news => register_news_tool
  | .weather => register_weather_tool

/-- Apply a sequence of registrations left to right. -/
def applySeq : List RegOp → List Json → Except PyExc (List Json)
  | [], l => .ok l
  | op :: ops, l => applyOp op l >>= applySeq ops

/-- Registry states reachable from the empty list by registrations. -/
def ReachState (l : List Json) : Prop :=
  l = [] ∨ l = [NEWS_TOOL_DEFINITION] ∨ l = [WEATHER_TOOL_DEFINITION] ∨
  l = [NEWS_TOOL_DEFINITION, WEATHER_TOOL_DEFINITION] ∨
  l = [WEATHER_TOOL_DEFINITION, NEWS_TOOL_DEFINITION]

/-! ### JSON encoding (`json.dumps` with default options) -/

/-- Lowercase hexadecimal digit. -/
def hexDigit (n : Nat) : Char :=
  if n < 10 then Char.ofNat (48 + n) else Char.ofNat (87 + n)

/-- Four-digit lowercase hex rendering of a code unit. -/
def hex4 (n : Nat) : String :=
  String.mk [hexDigit (n / 4096 % 16), hexDigit (n / 256 % 16),
             hexDigit (n / 16 % 16), hexDigit (n % 16)]

/-- Escape of one character under `json.dumps` defaults (`ensure_ascii`
on: control and non-ASCII characters become `\uXXXX`, astral characters
a surrogate pair). -/
def escChar (c : Char) : String :=
  if c = '"' then "\\\""
  else if c = '\\' then "\\\\"
  else if c = '\n' then "\\n"
  else if c = '\r' then "\\r"
  else if c = '\t' then "\\t"
  else if c = Char.ofNat 8 then "\\b"
  else if c = Char.ofNat 12 then "\\f"
  else if c.toNat < 32 then "\\u" ++ hex4 c.toNat
  else if c.toNat < 127 then String.singleton c
  else if c.toNat < 65536 then "\\u" ++ hex4 c.toNat
  else
    "\\u" ++ hex4 (55296 + (c.toNat - 65536) / 1024) ++
      "\\u" ++ hex4 (56320 + (c.toNat - 65536) % 1024)

/-- `json.dumps` rendering of a string. -/
def dumpsStr (s : String) : String :=
  "\"" ++ String.join (s.data.map escChar) ++ "\""

/-- `json.dumps` rendering of a number; the payloads encoded by the DAG
carry only integers, rendered exactly as Python renders them. -/
def dumpsNum (q : ℚ) : String :=
  if q.den = 1 then toString q.num else toString q

mutual

/-- Embedding of Python `json.dumps` with its default separators
(`", "` and `": "`). -/
def Json.dumps : Json → String
  | .null => "null"
  | .bool true => "true"
  | .bool false => "false"
  | .num q => dumpsNum q
  | .str s => dumpsStr s
  | .arr xs => "[" ++ dumpsList xs ++ "]"
  | .obj kvs => "\x7b" ++ dumpsPairs kvs ++ "\x7d"

/-- Comma-separated rendering of array elements. -/
def dumpsList : List Json → String
  | [] => ""
  | [x] => Json.dumps x
  | x :: y :: rest => Json.dumps x ++ ", " ++ dumpsList (y :: rest)

/-- Comma-separated rendering of object entries. -/
def dumpsPairs : List (String × Json) → String
  | [] => ""
  | [(k, v)] => dumpsStr k ++ ": " ++ Json.dumps v
  | (k, v) :: p :: rest => dumpsStr k ++ ": " ++ Json.dumps v ++ ", " ++ dumpsPairs (p :: rest)

end

/-! ### GigaChat orchestration (`dags/bitcoin_news_summary_dag.py`,
`summarize_news_with_gigachat`) -/

/-- Role of a conversation message sent to the model. -/
inductive Role where
  | user
  | assistant
  | tool
deriving DecidableEq

/-- One conversation message (`gigachat.models.Messages`). -/
structure Msg where
  role : Role
  content : String
  name : Option String
deriving DecidableEq

/-- One tool call carried by a model reply (`tool_call.function`). -/
structure GCToolCallF where
  name : String
  arguments : PyArgs

/-- One reply message from the model; `content` is `None` or a string. -/
structure GCMessage where
  content : Option String
  tool_calls : List GCToolCallF

/-- One model response: its `choices` list, plus the string `str(response)`
falls back to when `choices` is absent or empty. -/
structure GCResponse where
  choices : List GCMessage
  str_repr : String

/-- Python `str(...)` of an optional string (`str(None) = "None"`),
applied to `message.content` when appending the assistant message. -/
def pyStrOpt : Option String → String
  | none => "None"
  | some s => s

/-- Python `str.lower()` for the characters appearing in the DAG's error
indicators (ASCII and Cyrillic letters). -/
def pyLowerChar (c : Char) : Char :=
  if 65 ≤ c.toNat ∧ c.toNat ≤ 90 then Char.ofNat (c.toNat + 32)
  else if 1040 ≤ c.toNat ∧ c.toNat ≤ 1071 then Char.ofNat (c.toNat + 32)
  else if c.toNat = 1025 then Char.ofNat 1105
  else c

/-- Python `s.lower()`. -/
def pyLower (s : String) : String :=
  String.mk (s.data.map pyLowerChar)

/-- The `error_indicators` list of `summarize_news_with_gigachat`. -/
def error_indicators : List String :=
  ["ошибка", "error", "не удалось", "failed", "Can\x27t decode", "Authorization",
   "400", "401", "403", "500"]

/-- The heuristic error-content filter of `summarize_news_with_gigachat`:
some indicator occurs in the lowercased summary, and the confirmation
probe (`"ошибка при"`/`"error"` in the lowercased text, or `"400"`/`"401"`
in the original text) also fires. -/
def flagged (summary : String) : Bool :=
  (error_indicators.any (fun ind => strIn ind (pyLower summary))) &&
  (strIn "ошибка при" (pyLower summary) || strIn "error" (pyLower summary) ||
   strIn "400" summary || strIn "401" summary)

/-- Python `not summary or not summary.strip()`: the string is empty or
all whitespace. -/
def stripEmpty (s : String) : Bool :=
  s.data.all pyIsSpace

/-- The summary checks at the end of `summarize_news_with_gigachat`:
empty/whitespace/absent content raises the empty-result error, a flagged
summary raises the heuristic error (with the text truncated to 200
characters), anything else is returned. -/
def finalize : Option String → Except String String
  | none => .error "Саммари не было создано - получен пустой ответ от GigaChat"
  | some s =>
    if stripEmpty s then
      .error "Саммари не было создано - получен пустой ответ от GigaChat"
    else if flagged s then
      .error ("Ошибка при создании саммари: " ++ s.take 200)
    else
      .ok s

/-- The tool list the DAG builds once via `register_news_tool()` and
attaches to both model requests. -/
def dagTools : List Json := [NEWS_TOOL_DEFINITION]

/-- The initial user message of the conversation. -/
def userMsg (prompt : String) : Msg := ⟨.user, prompt, none⟩

/-- Messages appended by the tool-resolution loop: for each tool call, in
order, the original assistant message (its content via `str(...)`) and a
tool-role message named after the tool whose content is the JSON-encoded
dispatch result (the DAG dispatches every call through
`execute_news_tool`). -/
def toolMessages (m : GCMessage) (up : ClientUp) : List Msg :=
  (m.tool_calls.map (fun tc =>
    [Msg.mk .assistant (pyStrOpt m.content) none,
     Msg.mk .tool (Json.dumps (execute_news_tool ⟨tc.name, tc.arguments⟩ up).result)
       (some tc.name)])).flatten

/-- The model exchange of `summarize_news_with_gigachat` (lines 152-205):
send the prompt with the tool list; without tool calls the first reply's
content is extracted; with tool calls, append the resolution messages,
resend once with the same tool list, and extract the second reply's
content (falling back to the first message when the second response has
no choices, and to `str(response)` when the first has none). Returns the
extracted content and every conversation sent, each with its tool
list. -/
def runModel (client : List Msg → List Json → GCResponse) (up : ClientUp)
    (prompt : String) : Option String × List (List Msg × List Json) :=
  let msgs0 := [userMsg prompt]
  let r1 := client msgs0 dagTools
  match r1.choices with
  | [] => (some r1.str_repr, [(msgs0, dagTools)])
  | m1 :: _ =>
    if m1.tool_calls.isEmpty then
      (m1.content, [(msgs0, dagTools)])
    else
      let msgs1 := msgs0 ++ toolMessages m1 up
      let r2 := client msgs1 dagTools
      match r2.choices with
      | [] => (m1.content, [(msgs0, dagTools), (msgs1, dagTools)])
      | m2 :: _ => (m2.content, [(msgs0, dagTools), (msgs1, dagTools)])

/-- Outcome of one orchestration run: the raised error or returned
summary, the conversations sent, and the XCom pushes performed. -/
structure OrchOut where
  result : Except String String
  sent : List (List Msg × List Json)
  pushes : List (String × String)

/-- One full run of `summarize_news_with_gigachat` after client creation:
the model exchange followed by the summary checks; the outer `except`
wraps any raised message, and the summary XCom push happens only on
success. -/
def summarize_run (client : List Msg → List Json → GCResponse) (up : ClientUp)
    (prompt : String) : OrchOut :=
  let rm := runModel client up prompt
  match finalize rm.1 with
  | .error m => ⟨.error ("Ошибка при создании саммари: " ++ m), rm.2, []⟩
  | .ok s => ⟨.ok s, rm.2, [("summary", s)]⟩

/-- Model oracle for the concrete single-tool-call run: the first send
(one message) answers with a `news` tool call, the resend answers with
the final text. -/
def wClient : List Msg → List Json → GCResponse := fun msgs _ =>
  if msgs.length = 1 then
    ⟨[⟨some "thinking", [⟨"news", PyArgs.val (Json.obj [])⟩]⟩], "r1"⟩
  else
    ⟨[⟨some "Bitcoin is down.", []⟩], "r2"⟩

/-- Upstream outcome for the concrete run: the tool resolves to
`{titles:["A"], total_count:1}`. -/
def wUp : ClientUp :=
  .resp 200 "" (.ok (Json.obj [("titles", Json.arr [Json.str "A"]),
    ("total_count", Json.num 1)]))

/-- First reply message of the concrete run. -/
def wM1 : GCMessage := ⟨some "thinking", [⟨"news", PyArgs.val (Json.obj [])⟩]⟩

/-- Python `d.get(k)` on a plain association list (the value bound to
`k`, or `None`). -/
def dictField (dkvs : List (String × Json)) (k : String) : Json :=
  ((dkvs.find? (fun p => p.1 == k)).map Prod.snd).getD .null

/-- Payload predicted for a weather extraction that reads its four fields
from the object `dkvs`: the extraction-failure payload with the raw body
when all four are `None`, the success payload otherwise. -/
def fieldsResult (wd : Json) (dkvs : List (String × Json)) : Json :=
  if (dictField dkvs "temp").isNull && (dictField dkvs "condition").isNull &&
      (dictField dkvs "wind_speed").isNull && (dictField dkvs "humidity").isNull then
    Json.obj [("error", .str "Не удалось извлечь данные о погоде из ответа API"),
              ("raw_response", wd)]
  else
    Json.obj [("temperature", dictField dkvs "temp"),
              ("condition", dictField dkvs "condition"),
              ("wind_speed", dictField dkvs "wind_speed"),
              ("humidity", dictField dkvs "humidity")]

/-! ### Theorems -/

/-- C2: for numeric coordinates, an out-of-range latitude or longitude
makes the weather handler return an error payload — a distinct message
per axis, with latitude checked first — and the upstream weather API
call is never performed. -/
theorem weather_range_validation (la lo : ℚ) (key : Option String) (up : Upstream)
    (h : ¬((-90 : ℚ) ≤ la ∧ la ≤ 90) ∨ ¬((-180 : ℚ) ≤ lo ∧ lo ≤ 180)) :
    (_handle_weather_request (.num la) (.num lo) key up).upstreamCalled = false ∧
    ((_handle_weather_request (.num la) (.num lo) key up).payload).hasKey "error" = true ∧
    (_handle_weather_request (.num la) (.num lo) key up).payload =
      (if ¬((-90 : ℚ) ≤ la ∧ la ≤ 90) then errObj latRangeMsg else errObj lonRangeMsg) ∧
    latRangeMsg ≠ lonRangeMsg := by
  have hne : latRangeMsg ≠ lonRangeMsg := by decide
  by_cases hla : ((-90 : ℚ) ≤ la ∧ la ≤ 90)
  · have hlo : ¬((-180 : ℚ) ≤ lo ∧ lo ≤ 180) := by tauto
    simp [_handle_weather_request, hla, hlo, errObj, Json.hasKey, Json.lookup?, hne]
  · simp [_handle_weather_request, hla, errObj, Json.hasKey, Json.lookup?, hne]

/-- Concrete instance of `weather_range_validation`: latitude `200` is
rejected with the latitude message and no upstream call. -/
theorem weather_range_validation_witness :
    (¬((-90 : ℚ) ≤ 200 ∧ (200 : ℚ) ≤ 90) ∨ ¬((-180 : ℚ) ≤ 0 ∧ (0 : ℚ) ≤ 180)) ∧
    ((_handle_weather_request (.num 200) (.num 0) none .timeout).upstreamCalled = false ∧
     ((_handle_weather_request (.num 200) (.num 0) none .timeout).payload).hasKey "error" = true ∧
     (_handle_weather_request (.num 200) (.num 0) none .timeout).payload =
       (if ¬((-90 : ℚ) ≤ (200 : ℚ) ∧ (200 : ℚ) ≤ 90) then errObj latRangeMsg else errObj lonRangeMsg) ∧
     latRangeMsg ≠ lonRangeMsg) :=
  ⟨by decide, weather_range_validation 200 0 none .timeout (by decide)⟩

/-- Bind on a successful `Except` computes the continuation. -/
theorem ok_bind {ε α β : Type} (a : α) (f : α → Except ε β) :
    (Except.ok a >>= f : Except ε β) = f a := rfl

/-- The `pure` of the `Except` monad is `Except.ok`. -/
theorem pure_eq_ok {ε α : Type} (a : α) : (pure a : Except ε α) = Except.ok a := rfl

/-- A list's `any` is the success of its `find?`. -/
theorem any_eq_find?_isSome {α : Type} (p : α → Bool) (l : List α) :
    l.any p = (l.find? p).isSome := by
  induction l with
  | nil => rfl
  | cons a t ih =>
    by_cases h : p a = true
    · simp [List.any_cons, List.find?_cons, h]
    · simp only [Bool.not_eq_true] at h
      simp [List.any_cons, List.find?_cons, h, ih]

/-- On a list of objects, the collection loop succeeds and produces
exactly the titles of the objects that have one. -/
theorem collectTitles_objs (arts : List (List (String × Json))) :
    collectTitles (arts.map Json.obj) = .ok (objsTitles arts) := by
  induction arts with
  | nil => rfl
  | cons a t ih =>
    have h1 : collectTitles ((a :: t).map Json.obj) =
        (if a.any (fun p => p.1 == "title") then do
            let tv ← pySubscr (Json.obj a) "title"
            let ts ← collectTitles (t.map Json.obj)
            pure (tv :: ts)
          else collectTitles (t.map Json.obj)) := rfl
    rcases hf : a.find? (fun p => p.1 == "title") with _ | ⟨k, v⟩
    · have hany : a.any (fun p => p.1 == "title") = false := by
        rw [any_eq_find?_isSome, hf]; rfl
      have hobj : objsTitles (a :: t) = objsTitles t := by
        simp [objsTitles, List.filterMap_cons, hf]
      rw [h1, hany, if_neg (by simp), ih, hobj]
    · have hany : a.any (fun p => p.1 == "title") = true := by
        rw [any_eq_find?_isSome, hf]; rfl
      have hsub : pySubscr (Json.obj a) "title" = .ok v := by
        have h0 : pySubscr (Json.obj a) "title" =
            (match a.find? (fun p => p.1 == "title") with
             | some p => Except.ok p.2
             | none => Except.error PyExc.keyError) := rfl
        rw [h0, hf]
      have hobj : objsTitles (a :: t) = v :: objsTitles t := by
        simp [objsTitles, List.filterMap_cons, hf]
      rw [h1, hany, if_pos rfl, hsub, hobj]
      show (collectTitles (t.map Json.obj) >>= fun ts =>
          pure (v :: ts) : Except PyExc (List Json)) = _
      rw [ih]
      rfl

/-- C8 (amended): for a 200 upstream body that is an object whose
`results` key holds a list of objects, the news handler returns
`{titles, total_count}` with the `title` of each object that has one, in
order, objects without a title skipped, `total_count` the number of
extracted titles, and HTTP status 200 on the `/news` route. -/
theorem news_titles_extraction (kvs : List (String × Json))
    (arts : List (List (String × Json))) (text : String)
    (h : (Json.obj kvs).lookup? "results" = some (.arr (arts.map Json.obj))) :
    _handle_news_request (.resp 200 text (.ok (.obj kvs))) =
      Json.obj [("titles", .arr (objsTitles arts)),
                ("total_count", .num ((objsTitles arts).length : ℚ))] ∧
    get_status "/news" (_handle_news_request (.resp 200 text (.ok (.obj kvs)))) = 200 := by
  have hL : (Json.obj kvs).lookup? "results" =
      (kvs.find? (fun p => p.1 == "results")).map Prod.snd := rfl
  rw [hL] at h
  have hfind : ∃ p, kvs.find? (fun p => p.1 == "results") = some p ∧
      p.2 = Json.arr (arts.map Json.obj) := by
    rcases hf : kvs.find? (fun p => p.1 == "results") with _ | p
    · rw [hf] at h; exact Option.noConfusion h
    · rw [hf] at h
      exact ⟨p, hf, Option.some.inj h⟩
  rcases hfind with ⟨p, hp, hp2⟩
  have hany : kvs.any (fun p => p.1 == "results") = true := by
    rw [any_eq_find?_isSome, hp]; rfl
  have hsub : pySubscr (Json.obj kvs) "results" = .ok (.arr (arts.map Json.obj)) := by
    have h0 : pySubscr (Json.obj kvs) "results" =
        (match kvs.find? (fun p => p.1 == "results") with
         | some p => Except.ok p.2
         | none => Except.error PyExc.keyError) := rfl
    rw [h0, hp]
    show Except.ok p.2 = _
    rw [hp2]
  have ht : newsTitlesOf (Json.obj kvs) = collectTitles (arts.map Json.obj) := by
    show (if (kvs.any (fun p => p.1 == "results")) = true then
        pySubscr (Json.obj kvs) "results" >>= fun res =>
          (match res with
           | Json.arr arts2 => collectTitles arts2
           | _ => pure ([] : List Json))
      else pure ([] : List Json)) = _
    rw [hany, if_pos rfl, hsub]
    rfl
  have hx : newsExtract (Json.obj kvs) =
      Except.ok (Json.obj [("titles", .arr (objsTitles arts)),
        ("total_count", .num ((objsTitles arts).length : ℚ))]) := by
    show (newsTitlesOf (Json.obj kvs) >>= fun titles =>
        pure (Json.obj [("titles", .arr titles), ("total_count", .num (titles.length : ℚ))])) = _
    rw [ht, collectTitles_objs]
    rfl
  have hmain : _handle_news_request (.resp 200 text (.ok (.obj kvs))) =
      Json.obj [("titles", .arr (objsTitles arts)),
                ("total_count", .num ((objsTitles arts).length : ℚ))] := by
    show newsParse (Json.obj kvs) = _
    rw [newsParse, hx]
  refine ⟨hmain, ?_⟩
  rw [hmain]
  simp [get_status, Json.hasKey, Json.lookup?]

/-- Concrete instance of `news_titles_extraction`: the upstream body
`{results:[{title:"A"},{title:"B"},{other:"x"}]}` yields
`{titles:["A","B"], total_count:2}` with HTTP 200. -/
theorem news_titles_extraction_witness :
    (Json.obj [("results", Json.arr ([[("title", Json.str "A")], [("title", Json.str "B")],
        [("other", Json.str "x")]].map Json.obj))]).lookup? "results" =
      some (.arr ([[("title", Json.str "A")], [("title", Json.str "B")],
        [("other", Json.str "x")]].map Json.obj)) ∧
    (_handle_news_request (.resp 200 "" (.ok (.obj [("results", Json.arr
        ([[("title", Json.str "A")], [("title", Json.str "B")],
          [("other", Json.str "x")]].map Json.obj))]))) =
      Json.obj [("titles", .arr (objsTitles [[("title", Json.str "A")],
          [("title", Json.str "B")], [("other", Json.str "x")]])),
        ("total_count", .num ((objsTitles [[("title", Json.str "A")],
          [("title", Json.str "B")], [("other", Json.str "x")]]).length : ℚ))] ∧
     get_status "/news" (_handle_news_request (.resp 200 "" (.ok (.obj [("results", Json.arr
        ([[("title", Json.str "A")], [("title", Json.str "B")],
          [("other", Json.str "x")]].map Json.obj))])))) = 200) :=
  ⟨rfl, news_titles_extraction _ [[("title", Json.str "A")], [("title", Json.str "B")],
      [("other", Json.str "x")]] "" rfl⟩

/-- C8 counterexample: for the 200 upstream body `{results:[5]}` — a
`results` list whose element is not an object — the handler does not
return a `titles` payload as the claim predicts; it returns an error
payload (the membership test `"title" in 5` raises `TypeError`) and the
`/news` route answers 400, not 200. -/
theorem news_nonobject_element_counterexample :
    ((_handle_news_request (.resp 200 "" (.ok (Json.obj [("results",
        Json.arr [Json.num 5])])))).hasKey "titles" = false) ∧
    ((_handle_news_request (.resp 200 "" (.ok (Json.obj [("results",
        Json.arr [Json.num 5])])))).hasKey "error" = true) ∧
    get_status "/news" (_handle_news_request (.resp 200 "" (.ok (Json.obj [("results",
        Json.arr [Json.num 5])])))) = 400 := by
  refine ⟨rfl, rfl, rfl⟩

/-- A successful news extraction is always a full `{titles, total_count}`
payload. -/
theorem newsExtract_ok_shape (nd : Json) (r : Json) (h : newsExtract nd = .ok r) :
    ∃ ts : List Json,
      r = Json.obj [("titles", .arr ts), ("total_count", .num (ts.length : ℚ))] := by
  have h0 : newsExtract nd = (newsTitlesOf nd >>= fun titles =>
      pure (Json.obj [("titles", .arr titles),
        ("total_count", .num (titles.length : ℚ))])) := rfl
  rw [h0] at h
  rcases hv : newsTitlesOf nd with e | ts
  · rw [hv] at h
    exact Except.noConfusion h
  · rw [hv] at h
    exact ⟨ts, (Except.ok.inj h).symm⟩

/-- Every error payload of the news handler carries no top-level `titles`
key: a failed request never returns partial titles. -/
theorem news_error_no_titles (up : Upstream) :
    (_handle_news_request up).hasKey "error" = true →
    (_handle_news_request up).hasKey "titles" = false := by
  cases up with
  | timeout => intro _; rfl
  | connError m => intro _; rfl
  | reqError m => intro _; rfl
  | resp st text body =>
    by_cases hst : st = 200
    · subst hst
      have h0 : _handle_news_request (.resp 200 text body) =
          (match body with
           | .error m => errObj ("Ошибка сети: " ++ m)
           | .ok nd => newsParse nd) := rfl
      rw [h0]
      cases body with
      | error m => intro _; rfl
      | ok nd =>
        show (newsParse nd).hasKey "error" = true → (newsParse nd).hasKey "titles" = false
        have h1 : newsParse nd =
            (match newsExtract nd with
             | .ok r => r
             | .error e =>
               if newsCaught e then
                 Json.obj [("error", .str ("Неожиданный формат ответа от API: " ++ e.msg)),
                           ("raw_response", nd)]
               else errObj ("Неожиданная ошибка: " ++ e.msg)) := rfl
        rw [h1]
        rcases hv : newsExtract nd with e | r
        · cases e <;> intro _ <;> rfl
        · intro herr
          rcases newsExtract_ok_shape nd r hv with ⟨ts, rfl⟩
          have herr2 : (Json.obj [("titles", Json.arr ts),
              ("total_count", Json.num (ts.length : ℚ))]).hasKey "error" = true := herr
          exact Bool.noConfusion herr2
    · have h0 : _handle_news_request (.resp st text body) =
          Json.obj [("error", .str ("Ошибка API новостей: статус " ++ toString st)),
                    ("details", .str (if text = "" then "Unknown error" else text))] := by
        have h1 : _handle_news_request (.resp st text body) =
            (if st ≠ 200 then
              Json.obj [("error", .str ("Ошибка API новостей: статус " ++ toString st)),
                        ("details", .str (if text = "" then "Unknown error" else text))]
            else
              match body with
              | .error m => errObj ("Ошибка сети: " ++ m)
              | .ok nd => newsParse nd) := rfl
        rw [h1, if_pos hst]
      rw [h0]
      intro _; rfl

/-- C4 (amended): whenever the news handler produces an error payload —
upstream non-200 status, transport failure, or an internal/parse failure
caught inside the handler — the `/news` route answers HTTP 400 and the
payload carries no `titles`; every non-200 upstream status yields such an
error payload. -/
theorem news_failure_http_400 (up : Upstream) :
    ((_handle_news_request up).hasKey "error" = true →
      get_status "/news" (_handle_news_request up) = 400 ∧
      (_handle_news_request up).hasKey "titles" = false) ∧
    (∀ st text body, up = Upstream.resp st text body → st ≠ 200 →
      (_handle_news_request up).hasKey "error" = true) := by
  constructor
  · intro herr
    refine ⟨?_, news_error_no_titles up herr⟩
    simp [get_status, herr]
  · rintro st text body rfl hst
    have h1 : _handle_news_request (.resp st text body) =
        (if st ≠ 200 then
          Json.obj [("error", .str ("Ошибка API новостей: статус " ++ toString st)),
                    ("details", .str (if text = "" then "Unknown error" else text))]
        else
          match body with
          | .error m => errObj ("Ошибка сети: " ++ m)
          | .ok nd => newsParse nd) := rfl
    rw [h1, if_pos hst]
    rfl

/-- Concrete instance of `news_failure_http_400`: an upstream 503 yields
an error payload without titles and HTTP 400 on `/news`. -/
theorem news_failure_http_400_witness :
    ((_handle_news_request (.resp 503 "boom" (.ok Json.null))).hasKey "error" = true) ∧
    (get_status "/news" (_handle_news_request (.resp 503 "boom" (.ok Json.null))) = 400 ∧
     (_handle_news_request (.resp 503 "boom" (.ok Json.null))).hasKey "titles" = false) :=
  ⟨(news_failure_http_400 (.resp 503 "boom" (.ok Json.null))).2 503 "boom"
      (.ok Json.null) rfl (by decide),
   (news_failure_http_400 (.resp 503 "boom" (.ok Json.null))).1
      ((news_failure_http_400 (.resp 503 "boom" (.ok Json.null))).2 503 "boom"
        (.ok Json.null) rfl (by decide))⟩

/-- C4 counterexample: an exception while extracting titles from a 200
upstream body (here `{results:[null]}`, where `"title" in None` raises
`TypeError`) is caught by the handler and served as an error payload with
HTTP 400 on `/news` — not HTTP 500 as the claim states. -/
theorem news_parse_failure_status_counterexample :
    ((_handle_news_request (.resp 200 "" (.ok (Json.obj [("results",
        Json.arr [Json.null])])))).hasKey "error" = true) ∧
    get_status "/news" (_handle_news_request (.resp 200 "" (.ok (Json.obj [("results",
        Json.arr [Json.null])])))) = 400 ∧
    get_status "/news" (_handle_news_request (.resp 200 "" (.ok (Json.obj [("results",
        Json.arr [Json.null])])))) ≠ 500 :=
  ⟨rfl, rfl, by decide⟩

/-- C9: a POST whose non-empty body is not valid JSON is answered with
HTTP 400 and an error payload describing the decode failure, before any
routing — no handler runs and neither upstream API is contacted, on every
path including `/news`. -/
theorem post_invalid_json_rejected (pf : String → Option ℚ) (path : String)
    (m : String) (newsUp wUp : Upstream) (key : Option String) :
    do_POST pf path (.invalid m) newsUp wUp key =
      ⟨errObj ("Некорректный JSON: " ++ m), 400, false, false⟩ := rfl

/-- C3: dispatching a tool call whose name is not the registered tool
name returns the unknown-function error payload (`Неизвестная функция`
is the source's wording for "unknown function"), raises no exception,
executes no handler, and makes no HTTP request to the tool server — for
both the news and the weather dispatcher. -/
theorem dispatch_unknown_function (n : String) (a : PyArgs) (u1 u2 : ClientUp)
    (hn : n ≠ "news") (hw : n ≠ "weather") :
    execute_news_tool ⟨n, a⟩ u1 = ⟨errObj ("Неизвестная функция: " ++ n), false⟩ ∧
    execute_weather_tool ⟨n, a⟩ u2 = .ok ⟨errObj ("Неизвестная функция: " ++ n), false⟩ := by
  constructor
  · show (if n ≠ "news" then _ else _) = _
    rw [if_pos hn]
  · show (if n ≠ "weather" then _ else _) = _
    rw [if_pos hw]

/-- Concrete instance of `dispatch_unknown_function` at the name
`frobnicate`. -/
theorem dispatch_unknown_function_witness :
    ("frobnicate" ≠ "news") ∧ ("frobnicate" ≠ "weather") ∧
    (execute_news_tool ⟨"frobnicate", .val (.obj [])⟩ (.exc "down") =
      ⟨errObj ("Неизвестная функция: " ++ "frobnicate"), false⟩ ∧
     execute_weather_tool ⟨"frobnicate", .val (.obj [])⟩ (.exc "down") =
      .ok ⟨errObj ("Неизвестная функция: " ++ "frobnicate"), false⟩) :=
  ⟨by decide, by decide,
   dispatch_unknown_function "frobnicate" (.val (.obj [])) (.exc "down") (.exc "down")
     (by decide) (by decide)⟩

/-- C10: the news dispatcher ignores argument content — any two `news`
tool calls whose arguments decode successfully behave identically under
the same upstream, and both just return the upstream result of
`get_news_titles` (the decoded arguments are never passed on). -/
theorem news_dispatch_ignores_arguments (a b : PyArgs) (u : ClientUp)
    (ha : decodesOk a = true) (hb : decodesOk b = true) :
    execute_news_tool ⟨"news", a⟩ u = execute_news_tool ⟨"news", b⟩ u ∧
    execute_news_tool ⟨"news", a⟩ u = ⟨get_news_titles u, true⟩ := by
  have key : ∀ c : PyArgs, decodesOk c = true →
      execute_news_tool ⟨"news", c⟩ u = ⟨get_news_titles u, true⟩ := by
    intro c hc
    show (if ("news" : String) ≠ "news" then _ else _) = _
    rw [if_neg (by simp)]
    cases c with
    | jstr p =>
      cases p with
      | error m => exact Bool.noConfusion hc
      | ok j => rfl
    | val j => rfl
  exact ⟨(key a ha).trans (key b hb).symm, key a ha⟩

/-- Concrete instance of `news_dispatch_ignores_arguments`: an empty
JSON-string argument and a decoded mapping with extra keys give the same
dispatch result. -/
theorem news_dispatch_ignores_arguments_witness :
    (decodesOk (.jstr (.ok (.obj []))) = true) ∧
    (decodesOk (.val (.obj [("q", Json.str "btc")])) = true) ∧
    (execute_news_tool ⟨"news", .jstr (.ok (.obj []))⟩ (.exc "net down") =
       execute_news_tool ⟨"news", .val (.obj [("q", Json.str "btc")])⟩ (.exc "net down") ∧
     execute_news_tool ⟨"news", .jstr (.ok (.obj []))⟩ (.exc "net down") =
       ⟨get_news_titles (.exc "net down"), true⟩) :=
  ⟨rfl, rfl,
   news_dispatch_ignores_arguments (.jstr (.ok (.obj [])))
     (.val (.obj [("q", Json.str "btc")])) (.exc "net down") rfl rfl⟩

/-- Each registration step succeeds on a reachable state and stays in the
reachable set. -/
theorem applyOp_reach (op : RegOp) (l : List Json) (h : ReachState l) :
    ∃ l2, applyOp op l = .ok l2 ∧ ReachState l2 := by
  rcases h with rfl | rfl | rfl | rfl | rfl <;> cases op
  · exact ⟨[NEWS_TOOL_DEFINITION], rfl, Or.inr (Or.inl rfl)⟩
  · exact ⟨[WEATHER_TOOL_DEFINITION], rfl, Or.inr (Or.inr (Or.inl rfl))⟩
  · exact ⟨[NEWS_TOOL_DEFINITION], rfl, Or.inr (Or.inl rfl)⟩
  · exact ⟨[NEWS_TOOL_DEFINITION, WEATHER_TOOL_DEFINITION], rfl,
      Or.inr (Or.inr (Or.inr (Or.inl rfl)))⟩
  · exact ⟨[WEATHER_TOOL_DEFINITION, NEWS_TOOL_DEFINITION], rfl,
      Or.inr (Or.inr (Or.inr (Or.inr rfl)))⟩
  · exact ⟨[WEATHER_TOOL_DEFINITION], rfl, Or.inr (Or.inr (Or.inl rfl))⟩
  · exact ⟨[NEWS_TOOL_DEFINITION, WEATHER_TOOL_DEFINITION], rfl,
      Or.inr (Or.inr (Or.inr (Or.inl rfl)))⟩
  · exact ⟨[NEWS_TOOL_DEFINITION, WEATHER_TOOL_DEFINITION], rfl,
      Or.inr (Or.inr (Or.inr (Or.inl rfl)))⟩
  · exact ⟨[WEATHER_TOOL_DEFINITION, NEWS_TOOL_DEFINITION], rfl,
      Or.inr (Or.inr (Or.inr (Or.inr rfl)))⟩
  · exact ⟨[WEATHER_TOOL_DEFINITION, NEWS_TOOL_DEFINITION], rfl,
      Or.inr (Or.inr (Or.inr (Or.inr rfl)))⟩

/-- Any registration sequence from a reachable state succeeds and ends in
a reachable state. -/
theorem applySeq_reach (ops : List RegOp) (l : List Json) (h : ReachState l) :
    ∃ l2, applySeq ops l = .ok l2 ∧ ReachState l2 := by
  induction ops generalizing l with
  | nil => exact ⟨l, rfl, h⟩
  | cons op ops ih =>
    rcases applyOp_reach op l h with ⟨l1, h1, hr1⟩
    rcases ih l1 hr1 with ⟨l2, h2, hr2⟩
    refine ⟨l2, ?_, hr2⟩
    show (applyOp op l >>= applySeq ops) = .ok l2
    rw [h1, ok_bind, h2]

/-- Reachable states hold at most one descriptor per tool name. -/
theorem reach_count_le_one (l : List Json) (h : ReachState l) :
    countName l "news" ≤ 1 ∧ countName l "weather" ≤ 1 := by
  rcases h with rfl | rfl | rfl | rfl | rfl <;> exact ⟨by decide, by decide⟩

/-- C5: tool registration is idempotent and keeps the registry
duplicate-free — registering a name already present returns the list
unchanged; any sequence of registrations starting from the empty registry
succeeds and leaves at most one descriptor per tool name; and registering
the same name twice from empty leaves exactly one descriptor for it. -/
theorem registration_idempotent (l : List Json) (ops : List RegOp)
    (hn : scanFor "news" l = .ok true) (hw : scanFor "weather" l = .ok true) :
    register_news_tool l = .ok l ∧
    register_weather_tool l = .ok l ∧
    (∃ l2, applySeq ops [] = .ok l2 ∧
      countName l2 "news" ≤ 1 ∧ countName l2 "weather" ≤ 1) ∧
    (applySeq [.news, .news] [] = .ok [NEWS_TOOL_DEFINITION] ∧
      countName [NEWS_TOOL_DEFINITION] "news" = 1) := by
  refine ⟨?_, ?_, ?_, rfl, by decide⟩
  · show (scanFor "news" l >>= fun b =>
      if b then pure l else pure (l ++ [NEWS_TOOL_DEFINITION])) = .ok l
    rw [hn, ok_bind, if_pos rfl]
    rfl
  · show (scanFor "weather" l >>= fun b =>
      if b then pure l else pure (l ++ [WEATHER_TOOL_DEFINITION])) = .ok l
    rw [hw, ok_bind, if_pos rfl]
    rfl
  · rcases applySeq_reach ops [] (Or.inl rfl) with ⟨l2, h2, hr2⟩
    exact ⟨l2, h2, reach_count_le_one l2 hr2⟩

/-- Concrete instance of `registration_idempotent` on the registry
holding both descriptors. -/
theorem registration_idempotent_witness :
    (scanFor "news" [NEWS_TOOL_DEFINITION, WEATHER_TOOL_DEFINITION] = .ok true) ∧
    (scanFor "weather" [NEWS_TOOL_DEFINITION, WEATHER_TOOL_DEFINITION] = .ok true) ∧
    (register_news_tool [NEWS_TOOL_DEFINITION, WEATHER_TOOL_DEFINITION] =
      .ok [NEWS_TOOL_DEFINITION, WEATHER_TOOL_DEFINITION] ∧
     register_weather_tool [NEWS_TOOL_DEFINITION, WEATHER_TOOL_DEFINITION] =
      .ok [NEWS_TOOL_DEFINITION, WEATHER_TOOL_DEFINITION] ∧
     (∃ l2, applySeq [.news, .weather, .news] [] = .ok l2 ∧
       countName l2 "news" ≤ 1 ∧ countName l2 "weather" ≤ 1) ∧
     (applySeq [.news, .news] [] = .ok [NEWS_TOOL_DEFINITION] ∧
       countName [NEWS_TOOL_DEFINITION] "news" = 1)) :=
  ⟨rfl, rfl,
   registration_idempotent [NEWS_TOOL_DEFINITION, WEATHER_TOOL_DEFINITION]
     [.news, .weather, .news] rfl rfl⟩

/-- The DAG's tool list is the result of registering the news tool into
an empty registry. -/
theorem dagTools_spec : register_news_tool [] = .ok dagTools := rfl

/-- Unfolded form of `summarize_run`. -/
theorem summarize_run_eq (client : List Msg → List Json → GCResponse)
    (up : ClientUp) (prompt : String) :
    summarize_run client up prompt =
      (match finalize (runModel client up prompt).1 with
       | .error m => OrchOut.mk (.error ("Ошибка при создании саммари: " ++ m))
           (runModel client up prompt).2 []
       | .ok s => OrchOut.mk (.ok s) (runModel client up prompt).2 [("summary", s)]) := rfl

/-- C6: when the final extracted text is absent, empty, or whitespace
only, the orchestration raises the explicit empty-result error and pushes
no summary artifact for downstream delivery. -/
theorem orchestrator_empty_result (client : List Msg → List Json → GCResponse)
    (up : ClientUp) (prompt : String)
    (h : Option.all stripEmpty (runModel client up prompt).1 = true) :
    (summarize_run client up prompt).result =
      .error ("Ошибка при создании саммари: " ++
        "Саммари не было создано - получен пустой ответ от GigaChat") ∧
    (summarize_run client up prompt).pushes = [] := by
  have hfin : finalize (runModel client up prompt).1 =
      .error "Саммари не было создано - получен пустой ответ от GigaChat" := by
    rcases hv : (runModel client up prompt).1 with _ | s
    · rfl
    · rw [hv] at h
      have hs : stripEmpty s = true := h
      show (if stripEmpty s then
          Except.error "Саммари не было создано - получен пустой ответ от GigaChat"
        else if flagged s then
          Except.error ("Ошибка при создании саммари: " ++ s.take 200)
        else Except.ok s) = _
      rw [hs, if_pos rfl]
  rw [summarize_run_eq, hfin]
  exact ⟨rfl, rfl⟩

/-- Concrete instance of `orchestrator_empty_result`: a model whose only
reply has empty content. -/
theorem orchestrator_empty_result_witness :
    (Option.all stripEmpty
      (runModel (fun _ _ => ⟨[⟨some "", []⟩], "resp"⟩) (.exc "net") "prompt").1 = true) ∧
    ((summarize_run (fun _ _ => ⟨[⟨some "", []⟩], "resp"⟩) (.exc "net") "prompt").result =
      .error ("Ошибка при создании саммари: " ++
        "Саммари не было создано - получен пустой ответ от GigaChat") ∧
     (summarize_run (fun _ _ => ⟨[⟨some "", []⟩], "resp"⟩) (.exc "net") "prompt").pushes = []) :=
  ⟨rfl, orchestrator_empty_result (fun _ _ => ⟨[⟨some "", []⟩], "resp"⟩) (.exc "net") "prompt" rfl⟩

/-- C1: when the model's first reply carries exactly one tool call, for
the tool `news`, the orchestrator appends the assistant message and one
tool-role message — named after the tool, content the JSON-encoded
dispatch result — to the conversation, resends the full conversation
with the same tool list exactly once more, and, the second reply's
content passing the emptiness and error-indicator checks, that content is
the final answer; the resent conversation is exactly the user prompt plus
the one assistant and one tool message. -/
theorem orchestrator_single_tool_roundtrip
    (client : List Msg → List Json → GCResponse) (up : ClientUp) (prompt : String)
    (m1 m2 : GCMessage) (args : PyArgs) (s : String)
    (rest1 rest2 : List GCMessage) (rep1 rep2 : String)
    (h1 : client [userMsg prompt] dagTools = ⟨m1 :: rest1, rep1⟩)
    (htc : m1.tool_calls = [⟨"news", args⟩])
    (h2 : client ([userMsg prompt] ++ toolMessages m1 up) dagTools = ⟨m2 :: rest2, rep2⟩)
    (hm2 : m2.content = some s)
    (hs : stripEmpty s = false) (hf : flagged s = false) :
    (summarize_run client up prompt).result = .ok s ∧
    (summarize_run client up prompt).sent =
      [([userMsg prompt], dagTools),
       ([userMsg prompt] ++ toolMessages m1 up, dagTools)] ∧
    toolMessages m1 up =
      [Msg.mk .assistant (pyStrOpt m1.content) none,
       Msg.mk .tool (Json.dumps (execute_news_tool ⟨"news", args⟩ up).result) (some "news")] ∧
    ([userMsg prompt] ++ toolMessages m1 up).length = 3 := by
  have htm : toolMessages m1 up =
      [Msg.mk .assistant (pyStrOpt m1.content) none,
       Msg.mk .tool (Json.dumps (execute_news_tool ⟨"news", args⟩ up).result) (some "news")] := by
    show ((m1.tool_calls.map (fun tc =>
      [Msg.mk .assistant (pyStrOpt m1.content) none,
       Msg.mk .tool (Json.dumps (execute_news_tool ⟨tc.name, tc.arguments⟩ up).result)
         (some tc.name)])).flatten) = _
    rw [htc]
    rfl
  have hrm : runModel client up prompt =
      (some s, [([userMsg prompt], dagTools),
                ([userMsg prompt] ++ toolMessages m1 up, dagTools)]) := by
    have e1 : runModel client up prompt =
        (match (client [userMsg prompt] dagTools).choices with
         | [] => (some (client [userMsg prompt] dagTools).str_repr,
             [([userMsg prompt], dagTools)])
         | m1' :: _ =>
           if m1'.tool_calls.isEmpty then
             (m1'.content, [([userMsg prompt], dagTools)])
           else
             match (client ([userMsg prompt] ++ toolMessages m1' up) dagTools).choices with
             | [] => (m1'.content, [([userMsg prompt], dagTools),
                 ([userMsg prompt] ++ toolMessages m1' up, dagTools)])
             | m2' :: _ => (m2'.content, [([userMsg prompt], dagTools),
                 ([userMsg prompt] ++ toolMessages m1' up, dagTools)])) := rfl
    rw [e1, h1]
    show (if m1.tool_calls.isEmpty then
        ((m1.content, [([userMsg prompt], dagTools)]) :
          Option String × List (List Msg × List Json))
      else
        match (client ([userMsg prompt] ++ toolMessages m1 up) dagTools).choices with
        | [] => (m1.content, [([userMsg prompt], dagTools),
            ([userMsg prompt] ++ toolMessages m1 up, dagTools)])
        | m2' :: _ => (m2'.content, [([userMsg prompt], dagTools),
            ([userMsg prompt] ++ toolMessages m1 up, dagTools)])) = _
    rw [htc, if_neg (fun hce => Bool.noConfusion hce), h2]
    show (m2.content, [([userMsg prompt], dagTools),
        ([userMsg prompt] ++ toolMessages m1 up, dagTools)]) = _
    rw [hm2]
  have hfin : finalize (runModel client up prompt).1 = .ok s := by
    rw [hrm]
    show (if stripEmpty s then
        Except.error "Саммари не было создано - получен пустой ответ от GigaChat"
      else if flagged s then
        Except.error ("Ошибка при создании саммари: " ++ s.take 200)
      else Except.ok s) = _
    rw [hs, hf]
    rfl
  rw [summarize_run_eq, hfin, hrm]
  exact ⟨rfl, rfl, htm, by rw [htm]; rfl⟩

/-- Concrete instance of `orchestrator_single_tool_roundtrip`, matching
the spec scenario: the tool resolves to `{titles:["A"], total_count:1}`,
the resend returns `"Bitcoin is down."`, and that is the final answer
with exactly one assistant and one tool message appended. -/
theorem orchestrator_single_tool_roundtrip_witness :
    (wClient [userMsg "p"] dagTools = ⟨wM1 :: [], "r1"⟩) ∧
    (wM1.tool_calls = [⟨"news", PyArgs.val (Json.obj [])⟩]) ∧
    (wClient ([userMsg "p"] ++ toolMessages wM1 wUp) dagTools =
       ⟨⟨some "Bitcoin is down.", []⟩ :: [], "r2"⟩) ∧
    (stripEmpty "Bitcoin is down." = false) ∧ (flagged "Bitcoin is down." = false) ∧
    ((summarize_run wClient wUp "p").result = .ok "Bitcoin is down." ∧
     (summarize_run wClient wUp "p").sent =
       [([userMsg "p"], dagTools), ([userMsg "p"] ++ toolMessages wM1 wUp, dagTools)] ∧
     toolMessages wM1 wUp =
       [Msg.mk .assistant (pyStrOpt wM1.content) none,
        Msg.mk .tool (Json.dumps (execute_news_tool
          ⟨"news", PyArgs.val (Json.obj [])⟩ wUp).result) (some "news")] ∧
     ([userMsg "p"] ++ toolMessages wM1 wUp).length = 3) :=
  ⟨rfl, rfl, rfl, by decide, by decide,
   orchestrator_single_tool_roundtrip wClient wUp "p" wM1
     ⟨some "Bitcoin is down.", []⟩ (PyArgs.val (Json.obj [])) "Bitcoin is down."
     [] [] "r1" "r2" rfl rfl rfl rfl (by decide) (by decide)⟩

/-- Reading the four fields from an object value never raises and
produces exactly `fieldsResult`. -/
theorem weatherReadFields_obj (wd : Json) (dkvs : List (String × Json)) :
    weatherReadFields wd (Json.obj dkvs) = .ok (fieldsResult wd dkvs) := by
  show (if (dictField dkvs "temp").isNull && (dictField dkvs "condition").isNull &&
      (dictField dkvs "wind_speed").isNull && (dictField dkvs "humidity").isNull then
      (pure (Json.obj [("error", .str "Не удалось извлечь данные о погоде из ответа API"),
                       ("raw_response", wd)]) : Except PyExc Json)
    else
      pure (Json.obj [("temperature", dictField dkvs "temp"),
                      ("condition", dictField dkvs "condition"),
                      ("wind_speed", dictField dkvs "wind_speed"),
                      ("humidity", dictField dkvs "humidity")])) = _
  rw [fieldsResult]
  cases hB : ((dictField dkvs "temp").isNull && (dictField dkvs "condition").isNull &&
      (dictField dkvs "wind_speed").isNull && (dictField dkvs "humidity").isNull)
  · rfl
  · rfl

/-- C7: for a valid weather request whose upstream call returns 200 with
an object body, the handler runs field extraction on that body; with a
truthy `fact` object it extracts `{temperature, condition, wind_speed,
humidity}` from `fact`; with `fact` absent or falsy it falls back to
`forecasts[0].parts.day`; and in both shapes an all-null extraction
yields the error payload with the raw upstream body attached instead of
a success (`fieldsResult`). -/
theorem weather_success_extraction
    (la lo : ℚ) (key text : String) (kvs : List (String × Json))
    (hla : (-90 : ℚ) ≤ la ∧ la ≤ 90) (hlo : (-180 : ℚ) ≤ lo ∧ lo ≤ 180)
    (hk0 : key ≠ "") (hk1 : pyStrip key ≠ "") :
    (_handle_weather_request (.num la) (.num lo) (some key)
        (.resp 200 text (.ok (Json.obj kvs))) =
      ⟨weatherParse (Json.obj kvs), true⟩) ∧
    (∀ fkvs, (Json.obj kvs).lookup? "fact" = some (Json.obj fkvs) → fkvs ≠ [] →
      weatherParse (Json.obj kvs) = fieldsResult (Json.obj kvs) fkvs) ∧
    (∀ fact0, pyGetD (Json.obj kvs) "fact" (.obj []) = .ok fact0 → fact0.truthy = false →
      ∀ f0kvs rest pkvs dkvs,
        (Json.obj kvs).lookup? "forecasts" = some (.arr (Json.obj f0kvs :: rest)) →
        pyGetD (Json.obj f0kvs) "parts" (.obj []) = .ok (Json.obj pkvs) →
        pyGetD (Json.obj pkvs) "day" (.obj []) = .ok (Json.obj dkvs) →
        weatherParse (Json.obj kvs) = fieldsResult (Json.obj kvs) dkvs) := by
  refine ⟨?_, ?_, ?_⟩
  · have hv : weather_validated (some key) (.resp 200 text (.ok (Json.obj kvs))) =
        ⟨weatherParse (Json.obj kvs), true⟩ := by
      show (if key = "" then
          (⟨errObj "API ключ не настроен. Установите переменную окружения YANDEX_WEATHER_API_KEY", false⟩ : WeatherOut)
        else if pyStrip key = "" then
          ⟨errObj "API ключ пустой. Проверьте переменную окружения YANDEX_WEATHER_API_KEY в .env файле", false⟩
        else
          ⟨weatherUpstreamResult (.resp 200 text (.ok (Json.obj kvs))), true⟩) = _
      rw [if_neg hk0, if_neg hk1]
      rfl
    show (if Coord.num la = Coord.absent ∨ Coord.num lo = Coord.absent then
        (⟨errObj "Необходимо указать latitude и longitude", false⟩ : WeatherOut)
      else if ¬((-90 : ℚ) ≤ la ∧ la ≤ 90) then
        ⟨errObj latRangeMsg, false⟩
      else if ¬((-180 : ℚ) ≤ lo ∧ lo ≤ 180) then
        ⟨errObj lonRangeMsg, false⟩
      else
        weather_validated (some key) (.resp 200 text (.ok (Json.obj kvs)))) = _
    rw [if_neg (by simp), if_neg (not_not_intro hla), if_neg (not_not_intro hlo), hv]
  · intro fkvs hfk hne
    have hget : (kvs.find? (fun p => p.1 == "fact")).map Prod.snd =
        some (Json.obj fkvs) := hfk
    have hg : pyGetD (Json.obj kvs) "fact" (.obj []) = .ok (Json.obj fkvs) := by
      show Except.ok (((kvs.find? (fun p => p.1 == "fact")).map Prod.snd).getD (.obj [])) = _
      rw [hget]
      rfl
    have htr : (Json.obj fkvs).truthy = true := by
      cases fkvs with
      | nil => exact absurd rfl hne
      | cons a t => rfl
    have he : weatherExtract (Json.obj kvs) =
        weatherReadFields (Json.obj kvs) (Json.obj fkvs) := by
      show (pyGetD (Json.obj kvs) "fact" (.obj []) >>= fun fact0 =>
        (if fact0.truthy then pure fact0 else weatherFallbackFact (Json.obj kvs)) >>= fun fact =>
          weatherReadFields (Json.obj kvs) fact) = _
      rw [hg, ok_bind]
      show ((if (Json.obj fkvs).truthy then pure (Json.obj fkvs)
          else weatherFallbackFact (Json.obj kvs)) >>= fun fact =>
            weatherReadFields (Json.obj kvs) fact) = _
      rw [htr, if_pos rfl]
      rfl
    show (match weatherExtract (Json.obj kvs) with
      | .ok r => r
      | .error e =>
        if weatherCaught e then
          Json.obj [("error", .str ("Неожиданный формат ответа от API: " ++ e.msg)),
                    ("raw_response", Json.obj kvs)]
        else errObj ("Неожиданная ошибка: " ++ e.msg)) = _
    rw [he, weatherReadFields_obj]
  · intro fact0 hg htr f0kvs rest pkvs dkvs hfc hp1 hp2
    have hget : (kvs.find? (fun p => p.1 == "forecasts")).map Prod.snd =
        some (.arr (Json.obj f0kvs :: rest)) := hfc
    have e1 : pyGet (Json.obj kvs) "forecasts" = .ok (.arr (Json.obj f0kvs :: rest)) := by
      show Except.ok (((kvs.find? (fun p => p.1 == "forecasts")).map Prod.snd).getD .null) = _
      rw [hget]
      rfl
    have e2 : pyGetD (Json.obj kvs) "forecasts" (.arr [.obj []]) =
        .ok (.arr (Json.obj f0kvs :: rest)) := by
      show Except.ok (((kvs.find? (fun p => p.1 == "forecasts")).map Prod.snd).getD
        (.arr [.obj []])) = _
      rw [hget]
      rfl
    have hfb : weatherFallbackFact (Json.obj kvs) = .ok (Json.obj dkvs) := by
      show (pyGet (Json.obj kvs) "forecasts" >>= fun cond =>
        if cond.truthy then
          pyGetD (Json.obj kvs) "forecasts" (.arr [.obj []]) >>= fun fcs =>
            pyIndex0 fcs >>= fun f0 =>
              pyGetD f0 "parts" (.obj []) >>= fun parts =>
                pyGetD parts "day" (.obj [])
        else pure (.obj [])) = _
      rw [e1, ok_bind]
      show (pyGetD (Json.obj kvs) "forecasts" (.arr [.obj []]) >>= fun fcs =>
          pyIndex0 fcs >>= fun f0 =>
            pyGetD f0 "parts" (.obj []) >>= fun parts =>
              pyGetD parts "day" (.obj [])) = _
      rw [e2, ok_bind]
      show (pyIndex0 (Json.arr (Json.obj f0kvs :: rest)) >>= fun f0 =>
        pyGetD f0 "parts" (.obj []) >>= fun parts =>
          pyGetD parts "day" (.obj [])) = _
      rw [show pyIndex0 (Json.arr (Json.obj f0kvs :: rest)) = .ok (Json.obj f0kvs) from rfl,
        ok_bind]
      show (pyGetD (Json.obj f0kvs) "parts" (.obj []) >>= fun parts =>
        pyGetD parts "day" (.obj [])) = _
      rw [hp1, ok_bind]
      exact hp2
    have he : weatherExtract (Json.obj kvs) =
        weatherReadFields (Json.obj kvs) (Json.obj dkvs) := by
      show (pyGetD (Json.obj kvs) "fact" (.obj []) >>= fun fact1 =>
        (if fact1.truthy then pure fact1 else weatherFallbackFact (Json.obj kvs)) >>= fun fact =>
          weatherReadFields (Json.obj kvs) fact) = _
      rw [hg, ok_bind]
      show ((if fact0.truthy then pure fact0
          else weatherFallbackFact (Json.obj kvs)) >>= fun fact =>
            weatherReadFields (Json.obj kvs) fact) = _
      rw [htr, if_neg (fun hc => Bool.noConfusion hc), hfb, ok_bind]
    show (match weatherExtract (Json.obj kvs) with
      | .ok r => r
      | .error e =>
        if weatherCaught e then
          Json.obj [("error", .str ("Неожиданный формат ответа от API: " ++ e.msg)),
                    ("raw_response", Json.obj kvs)]
        else errObj ("Неожиданная ошибка: " ++ e.msg)) = _
    rw [he, weatherReadFields_obj]

/-- Concrete instance of `weather_success_extraction`: coordinates
`(50, 30)` with key `"k"` and upstream body
`{fact:{temp:5, condition:"clear", wind_speed:3, humidity:60}}`. -/
theorem weather_success_extraction_witness :
    ((-90 : ℚ) ≤ 50 ∧ (50 : ℚ) ≤ 90) ∧ ((-180 : ℚ) ≤ 30 ∧ (30 : ℚ) ≤ 180) ∧
    (("k" : String) ≠ "") ∧ (pyStrip "k" ≠ "") ∧
    (_handle_weather_request (.num 50) (.num 30) (some "k")
        (.resp 200 "" (.ok (Json.obj [("fact", Json.obj [("temp", Json.num 5),
          ("condition", Json.str "clear"), ("wind_speed", Json.num 3),
          ("humidity", Json.num 60)])]))) =
      ⟨weatherParse (Json.obj [("fact", Json.obj [("temp", Json.num 5),
        ("condition", Json.str "clear"), ("wind_speed", Json.num 3),
        ("humidity", Json.num 60)])]), true⟩) ∧
    (weatherParse (Json.obj [("fact", Json.obj [("temp", Json.num 5),
        ("condition", Json.str "clear"), ("wind_speed", Json.num 3),
        ("humidity", Json.num 60)])]) =
      fieldsResult (Json.obj [("fact", Json.obj [("temp", Json.num 5),
        ("condition", Json.str "clear"), ("wind_speed", Json.num 3),
        ("humidity", Json.num 60)])]) [("temp", Json.num 5),
        ("condition", Json.str "clear"), ("wind_speed", Json.num 3),
        ("humidity", Json.num 60)]) :=
  ⟨by decide, by decide, by decide, by decide,
   (weather_success_extraction 50 30 "k" ""
      [("fact", Json.obj [("temp", Json.num 5), ("condition", Json.str "clear"),
        ("wind_speed", Json.num 3), ("humidity", Json.num 60)])]
      (by decide) (by decide) (by decide) (by decide)).1,
   (weather_success_extraction 50 30 "k" ""
      [("fact", Json.obj [("temp", Json.num 5), ("condition", Json.str "clear"),
        ("wind_speed", Json.num 3), ("humidity", Json.num 60)])]
      (by decide) (by decide) (by decide) (by decide)).2.1
      [("temp", Json.num 5), ("condition", Json.str "clear"),
       ("wind_speed", Json.num 3), ("humidity", Json.num 60)] rfl
      (fun hc => List.noConfusion hc)⟩

end BtcNews

